import Mathlib

/-!
Verification of the trust-establishment and lifecycle core of the
`onecompany/gpt` confidential-computing fleet, against its natural-language
specification.  The Rust sources under `gpt_host`, `gpt_node`, `gpt_index`
and `gpt_types` are shallowly embedded: bytes are `Nat` values below 256,
byte strings are `List Nat`, registry maps are functions into `Option`,
and the external cryptography crates (`sev`, `p384`, `sha2`'s SHA-384) are
abstracted as parameter structures whose fields stand for the library
primitives the code calls.  SHA-256 (used for the registration nonce) is
implemented concretely.
-/

deriving instance DecidableEq for Except

namespace Gpt

/-- Byte strings: lists of byte values (each intended to be `< 256`). -/
abbrev Bytes := List Nat

/-- The eight little-endian bytes of a `u64` value, as produced by Rust's
`u64::to_le_bytes`. -/
def u64le (t : Nat) : Bytes :=
  [t % 256, t / 256 % 256, t / 256 ^ 2 % 256, t / 256 ^ 3 % 256,
   t / 256 ^ 4 % 256, t / 256 ^ 5 % 256, t / 256 ^ 6 % 256, t / 256 ^ 7 % 256]

/-- Lowercase hex digit for a value below 16 (as in the `hex` crate). -/
def hexDigitLower (n : Nat) : Char :=
  if n < 10 then Char.ofNat (48 + n) else Char.ofNat (87 + n)

/-- Mirror of `hex::encode`: lowercase hex string of a byte string. -/
def hexEncode (bs : Bytes) : String :=
  String.mk (bs.flatMap (fun b => [hexDigitLower (b / 16), hexDigitLower (b % 16)]))

/-- Value of one hex digit character (either case), as accepted by
`hex::decode`. -/
def hexDigitVal (c : Char) : Option Nat :=
  if 48 ≤ c.toNat ∧ c.toNat ≤ 57 then some (c.toNat - 48)
  else if 97 ≤ c.toNat ∧ c.toNat ≤ 102 then some (c.toNat - 87)
  else if 65 ≤ c.toNat ∧ c.toNat ≤ 70 then some (c.toNat - 55)
  else none

/-- Mirror of `hex::decode` on a list of characters: pairs of hex digits. -/
def hexDecodeChars : List Char → Option Bytes
  | [] => some []
  | [_] => none
  | c1 :: c2 :: rest =>
    match hexDigitVal c1, hexDigitVal c2, hexDecodeChars rest with
    | some h, some l, some bs => some ((16 * h + l) :: bs)
    | _, _, _ => none

/-- Mirror of `hex::decode`: bytes of a hex string, failing on odd length or a
non-hex character. -/
def hexDecode (s : String) : Option Bytes :=
  hexDecodeChars s.toList

/-- Rust's `str::trim`: the string with leading and trailing whitespace
removed. -/
def rustTrim (s : String) : String :=
  String.mk (((s.toList.dropWhile Char.isWhitespace).reverse.dropWhile
    Char.isWhitespace).reverse)

/-- Uppercase hex rendering of a number, as Rust's `format!("{:X}", n)`. -/
def natHexUpper (n : Nat) : String :=
  String.mk ((Nat.toDigits 16 n).map Char.toUpper)

/-! ### SHA-256

Concrete implementation of FIPS 180-4 SHA-256 over byte lists, standing for
the `sha2::Sha256` hasher both binaries use.  An incremental hasher that is
updated with several byte strings and then finalized hashes their
concatenation, so the embedding applies `sha256` to the concatenation. -/

/-- The 32-bit right rotation. -/
def rotr32 (n x : Nat) : Nat :=
  (x >>> n ||| x <<< (32 - n)) % 4294967296

/-- SHA-256 small sigma 0. -/
def ssig0 (x : Nat) : Nat := rotr32 7 x ^^^ rotr32 18 x ^^^ (x >>> 3)

/-- SHA-256 small sigma 1. -/
def ssig1 (x : Nat) : Nat := rotr32 17 x ^^^ rotr32 19 x ^^^ (x >>> 10)

/-- SHA-256 big sigma 0. -/
def bsig0 (x : Nat) : Nat := rotr32 2 x ^^^ rotr32 13 x ^^^ rotr32 22 x

/-- SHA-256 big sigma 1. -/
def bsig1 (x : Nat) : Nat := rotr32 6 x ^^^ rotr32 11 x ^^^ rotr32 25 x

/-- The 64 SHA-256 round constants of FIPS 180-4, in decimal. -/
def sha256K : List Nat :=
  [1116352408, 1899447441, 3049323471, 3921009573, 961987163, 1508970993,
   2453635748, 2870763221, 3624381080, 310598401, 607225278, 1426881987,
   1925078388, 2162078206, 2614888103, 3248222580, 3835390401, 4022224774,
   264347078, 604807628, 770255983, 1249150122, 1555081692, 1996064986,
   2554220882, 2821834349, 2952996808, 3210313671, 3336571891, 3584528711,
   113926993, 338241895, 666307205, 773529912, 1294757372, 1396182291,
   1695183700, 1986661051, 2177026350, 2456956037, 2730485921, 2820302411,
   3259730800, 3345764771, 3516065817, 3600352804, 4094571909, 275423344,
   430227734, 506948616, 659060556, 883997877, 958139571, 1322822218,
   1537002063, 1747873779, 1955562222, 2024104815, 2227730452, 2361852424,
   2428436474, 2756734187, 3204031479, 3329325298]

/-- State of the SHA-256 compression function: eight 32-bit words. -/
structure Sha256St where
  a : Nat
  b : Nat
  c : Nat
  d : Nat
  e : Nat
  f : Nat
  g : Nat
  h : Nat
deriving Repr, DecidableEq

/-- SHA-256 initial hash value of FIPS 180-4, in decimal. -/
def sha256H0 : Sha256St :=
  ⟨1779033703, 3144134277, 1013904242, 2773480762,
   1359893119, 2600822924, 528734635, 1541459225⟩

/-- One round of the SHA-256 compression function with round constant `k`
and schedule word `w`. -/
def sha256Round (st : Sha256St) (k w : Nat) : Sha256St :=
  let t1 := (st.h + bsig1 st.e + ((st.e &&& st.f) ^^^ ((2 ^ 32 - 1 - st.e) &&& st.g))
             + k + w) % 4294967296
  let t2 := (bsig0 st.a + ((st.a &&& st.b) ^^^ (st.a &&& st.c) ^^^ (st.b &&& st.c)))
             % 4294967296
  ⟨(t1 + t2) % 4294967296, st.a, st.b, st.c, (st.d + t1) % 4294967296, st.e, st.f, st.g⟩

/-- The first 16 32-bit big-endian words of a 64-byte block. -/
def sha256Words (block : Bytes) : List Nat :=
  (List.range 16).map (fun i =>
    (block.getD (4 * i) 0) * 2 ^ 24 + (block.getD (4 * i + 1) 0) * 2 ^ 16 +
    (block.getD (4 * i + 2) 0) * 2 ^ 8 + block.getD (4 * i + 3) 0)

/-- Extension step of the SHA-256 message schedule: appends `k` further
words to `w`. -/
def sha256Extend (w : List Nat) : Nat → List Nat
  | 0 => w
  | k + 1 =>
    let n := w.length
    let wt := (ssig1 (w.getD (n - 2) 0) + w.getD (n - 7) 0 +
               ssig0 (w.getD (n - 15) 0) + w.getD (n - 16) 0) % 4294967296
    sha256Extend (w ++ [wt]) k

/-- The full 64-word message schedule of a block. -/
def sha256Schedule (block : Bytes) : List Nat :=
  sha256Extend (sha256Words block) 48

/-- Pointwise 32-bit addition of two compression states. -/
def sha256Add (x y : Sha256St) : Sha256St :=
  ⟨(x.a + y.a) % 4294967296, (x.b + y.b) % 4294967296, (x.c + y.c) % 4294967296,
   (x.d + y.d) % 4294967296, (x.e + y.e) % 4294967296, (x.f + y.f) % 4294967296,
   (x.g + y.g) % 4294967296, (x.h + y.h) % 4294967296⟩

/-- Compress one 64-byte block into the running hash state. -/
def sha256Compress (st : Sha256St) (block : Bytes) : Sha256St :=
  sha256Add st (((sha256K.zip (sha256Schedule block)).foldl
    (fun s kw => sha256Round s kw.1 kw.2) st))

/-- Fold the compression function over consecutive 64-byte blocks.  The
`fuel` argument only bounds the number of blocks (any fuel at least the
byte count gives the same result); it makes the recursion structural so
that the kernel can evaluate digests. -/
def sha256Blocks : Nat → Sha256St → Bytes → Sha256St
  | 0, st, _ => st
  | _ + 1, st, [] => st
  | fuel + 1, st, b :: rest =>
    sha256Blocks fuel (sha256Compress st (List.take 64 (b :: rest)))
      (List.drop 64 (b :: rest))

/-- SHA-256 padding: `0x80`, zeros to 56 mod 64, then the bit length as
eight big-endian bytes. -/
def sha256Pad (msg : Bytes) : Bytes :=
  let l := msg.length
  let zeros := (64 - (l + 9) % 64) % 64
  let bitlen := 8 * l
  msg ++ [0x80] ++ List.replicate zeros 0 ++
    [bitlen / 2 ^ 56 % 256, bitlen / 2 ^ 48 % 256, bitlen / 2 ^ 40 % 256,
     bitlen / 2 ^ 32 % 256, bitlen / 2 ^ 24 % 256, bitlen / 2 ^ 16 % 256,
     bitlen / 2 ^ 8 % 256, bitlen % 256]

/-- Big-endian bytes of a 32-bit word. -/
def word32BE (x : Nat) : Bytes :=
  [x / 2 ^ 24 % 256, x / 2 ^ 16 % 256, x / 2 ^ 8 % 256, x % 256]

/-- SHA-256 of a byte string: a 32-byte digest. -/
def sha256 (msg : Bytes) : Bytes :=
  let padded := sha256Pad msg
  let st := sha256Blocks padded.length sha256H0 padded
  word32BE st.a ++ word32BE st.b ++ word32BE st.c ++ word32BE st.d ++
  word32BE st.e ++ word32BE st.f ++ word32BE st.g ++ word32BE st.h

/-! ### Domain types (`gpt_types`)

Mirrors of the Rust types in `gpt_types/src/domain/node.rs`,
`gpt_types/src/api/index/node.rs` and `gpt_types/src/error.rs`.  Only the
`CanisterError` constructors reachable from the embedded handlers are
included.  IC principals are byte strings; the anonymous principal is the
single byte `0x04`. -/

/-- An IC caller principal, as its byte representation. -/
abbrev Principal := List Nat

/-- The anonymous principal `Principal::anonymous()`: the byte `0x04`. -/
def anonymousPrincipal : Principal := [4]

/-- Mirror of `gpt_types::domain::node::MeasurementStatus`. -/
inductive MeasurementStatus
  | Active
  | Deprecated
  | Revoked
deriving Repr, DecidableEq

/-- The `Debug`-style rendering of a `MeasurementStatus`, as produced by
`format!("{:?}", status)`. -/
def MeasurementStatus.debugStr : MeasurementStatus → String
  | .Active => "Active"
  | .Deprecated => "Deprecated"
  | .Revoked => "Revoked"

/-- Mirror of `gpt_types::domain::node::NodeLifecycleStatus`. -/
inductive NodeLifecycleStatus
  | Active
  | Draining
  | Inactive
deriving Repr, DecidableEq

/-- Mirror of `gpt_types::domain::node::TcbVersion` (the registry's stored TCB,
with a defaulted `fmc`). -/
structure TcbVersion where
  bootloader : Nat
  tee : Nat
  snp : Nat
  microcode : Nat
  fmc : Nat
deriving Repr, DecidableEq

/-- Mirror of `sev::firmware::host::TcbVersion` as carried in an attestation
report: five components with `fmc` optional. -/
structure HostTcbVersion where
  fmc : Option Nat
  bootloader : Nat
  tee : Nat
  snp : Nat
  microcode : Nat
deriving Repr, DecidableEq

/-- Mirror of `gpt_types::domain::node::GenTcbRequirements`. -/
structure GenTcbRequirements where
  min_tcb : TcbVersion
  min_guest_svn : Nat
deriving Repr, DecidableEq

/-- Mirror of `gpt_types::domain::node::AttestationMeasurement`. -/
structure AttestationMeasurement where
  measurement_hex : String
  name : String
  status : MeasurementStatus
  created_at : Nat
  updated_at : Nat
deriving Repr, DecidableEq

/-- Mirror of `gpt_types::domain::node::AttestationRequirements`. -/
structure AttestationRequirements where
  min_report_version : Nat
  milan_policy : GenTcbRequirements
  genoa_policy : GenTcbRequirements
  turin_policy : GenTcbRequirements
  require_smt_disabled : Bool
  require_tsme_disabled : Bool
  require_ecc_enabled : Bool
  require_rapl_disabled : Bool
  require_ciphertext_hiding_enabled : Bool
  measurements : List AttestationMeasurement
  expected_measurement_len : Nat
  max_attestation_age_ns : Nat
deriving Repr, DecidableEq

/-- The platform-info bitmap of a report (`sev`'s `PlatformInfo`); bit 0
is SMT, bit 1 TSME, bit 2 ECC, bit 3 RAPL-disabled, per the SEV-SNP ABI
layout the `sev` crate exposes through its accessors. -/
def PlatInfo.smt_enabled (p : Nat) : Bool := p.testBit 0

/-- TSME-enabled bit of the platform-info bitmap. -/
def PlatInfo.tsme_enabled (p : Nat) : Bool := p.testBit 1

/-- ECC-enabled bit of the platform-info bitmap. -/
def PlatInfo.ecc_enabled (p : Nat) : Bool := p.testBit 2

/-- RAPL-disabled bit of the platform-info bitmap. -/
def PlatInfo.rapl_disabled (p : Nat) : Bool := p.testBit 3

/-- The parsed fields of `sev::firmware::guest::AttestationReport` that
the handlers read.  `sig_r`/`sig_s` are the raw little-endian scalar
buffers returned by `report.signature.r()`/`.s()`. -/
structure AttestationReport where
  version : Nat
  guest_svn : Nat
  measurement : Bytes
  report_data : Bytes
  chip_id : Bytes
  reported_tcb : HostTcbVersion
  plat_info : Nat
  sig_r : Bytes
  sig_s : Bytes
deriving Repr, DecidableEq

/-- Mirror of `gpt_types::domain::node::Node`: registry record of one node. -/
structure Node where
  node_id : Nat
  owner : Principal
  node_principal : Option Principal
  hostname : String
  model_id : String
  encrypted_api_key : String
  lifecycle_status : NodeLifecycleStatus
  authenticated_measurement : Option String
  attestation_verified_at : Option Nat
  last_heartbeat_timestamp : Option Nat
  expected_chip_id : String
  reported_measurement : Option Bytes
  reported_chip_id : Option Bytes
  reported_tcb : Option TcbVersion
  reported_platform_info : Option Nat
  detected_generation : Option String
  public_key : Option String
deriving Repr, DecidableEq

/-- The `CanisterError` constructors reachable from the embedded node
handlers (`gpt_types::error::CanisterError` has further variants used by
other subsystems). -/
inductive CanisterError
  | NodeNotFound
  | Unauthorized
  | InvalidInput (msg : String)
  | Other (msg : String)
deriving Repr, DecidableEq

/-- Mirror of `gpt_types::api::index::node::NodeHeartbeatCommand`. -/
inductive NodeHeartbeatCommand
  | Continue
  | DrainAndShutdown
  | Abort
deriving Repr, DecidableEq

/-- Mirror of `gpt_types::api::index::node::HeartbeatResponse`. -/
structure HeartbeatResponse where
  command : NodeHeartbeatCommand
deriving Repr, DecidableEq

/-- Mirror of `gpt_types::api::index::node::RegisterNodeRequest`. -/
structure RegisterNodeRequest where
  node_id : Nat
  attestation_report : Bytes
  ark_der : Bytes
  ask_der : Bytes
  vek_der : Bytes
  timestamp : Nat
  public_key : String
deriving Repr, DecidableEq

/-- Mirror of `gpt_types::api::index::node::RegisterNodeResponse`. -/
structure RegisterNodeResponse where
  success : Bool
deriving Repr, DecidableEq

/-- Registry canister state: the `NODES` stable map, the heap
`NODE_PRINCIPAL_INDEX`, and the `attestation_requirements` field of the
`CONFIG` cell (`gpt_index/src/storage.rs`). -/
structure RegistryState where
  nodes : Nat → Option Node
  nodeIndex : Principal → Option Nat
  attestation_requirements : Option AttestationRequirements

/-! ### Abstracted cryptography

The `sev` certificate type and the `p384` signature types are opaque to
the repository: the handlers only call library entry points on them.  The
embedding bundles those entry points into a parameter structure; every
theorem below holds for (or is witnessed by) an arbitrary instantiation,
so nothing about the internals of X.509 or ECDSA is assumed. -/

/-- Library primitives used by the attestation code: `sev`'s certificate
parsing and pair-verification, `p384`'s point/key/signature constructors
and `verify_prehash`, the `sev` report parser and SHA-384. -/
structure SnpCryptoModel where
  Cert : Type
  Point : Type
  VKey : Type
  Sig : Type
  /-- Mirror of `sev::certs::snp::Certificate::from_der`. -/
  certFromDer : Bytes → Except String Cert
  /-- Mirror of `(a, b).verify()` of `sev::certs::snp::Verifiable`: does the key of
  `a` sign `b`? -/
  certVerify : Cert → Cert → Bool
  /-- Mirror of `Certificate::public_key_sec1`. -/
  publicKeySec1 : Cert → Bytes
  /-- Mirror of `p384::EncodedPoint::from_bytes`. -/
  encodedPointFromBytes : Bytes → Except String Point
  /-- Mirror of `p384::ecdsa::VerifyingKey::from_encoded_point`. -/
  verifyingKeyFromPoint : Point → Except String VKey
  /-- Mirror of `p384::ecdsa::Signature::from_scalars` (big-endian scalars). -/
  signatureFromScalars : Bytes → Bytes → Except String Sig
  /-- Mirror of `VerifyingKey::verify_prehash` (true iff the signature verifies). -/
  verifyPrehash : VKey → Bytes → Sig → Bool
  /-- Mirror of `sha2::Sha384` digest. -/
  sha384 : Bytes → Bytes
  /-- Mirror of `sev::firmware::guest::AttestationReport::from_bytes`. -/
  reportFromBytes : Bytes → Except String AttestationReport

/-- Mirror of `P384_SCALAR_SIZE` (both binaries). -/
def P384_SCALAR_SIZE : Nat := 48

/-- Mirror of `SIGNED_DATA_LEN`: the signature covers the first 672 report bytes. -/
def SIGNED_DATA_LEN : Nat := 672

/-! ### Registry-side attestation verification
(`gpt_index/src/handlers/node/attestation.rs`) -/

/-- The certificate-chain phase of `verify_attestation_evidence`
(attestation.rs lines 36-45): the triple match on `(ark, ark).verify()`,
`(ark, ask).verify()`, `(ask, vek).verify()`.  Only the caller-supplied
certificates participate; no compiled-in root is consulted. -/
def verify_cert_chain (m : SnpCryptoModel) (ark ask vek : m.Cert) :
    Except String Unit :=
  match m.certVerify ark ark, m.certVerify ark ask, m.certVerify ask vek with
  | true, true, true => .ok ()
  | false, _, _ => .error "ARK self-signed check failed"
  | _, false, _ => .error "ARK -> ASK signature check failed"
  | _, _, false => .error "ASK -> VEK signature check failed"

/-- Mirror of `detect_generation_from_report` (attestation.rs lines 64-69). -/
def detect_generation_from_report (report : AttestationReport) : String :=
  if report.reported_tcb.fmc.isSome then "Turin" else "Milan"

/-- Mirror of `verify_report_signature_manually` (attestation.rs lines 71-126):
VEK public key extraction, SHA-384 of the first 672 raw bytes, byte
reversal of the 48-byte little-endian `r`/`s` scalars, `from_scalars`,
`verify_prehash`. -/
def verify_report_signature_manually (m : SnpCryptoModel)
    (report_bytes : Bytes) (report : AttestationReport) (vek : m.Cert) :
    Except String Unit := do
  let encoded_point ← (m.encodedPointFromBytes (m.publicKeySec1 vek)).mapError
    (fun e => "Failed to parse VEK pubkey SEC1 bytes: " ++ e)
  let verifying_key ← (m.verifyingKeyFromPoint encoded_point).mapError
    (fun e => "Failed to create P-384 verifying key from point: " ++ e)
  if report_bytes.length < SIGNED_DATA_LEN then
    throw ("Report too short for signature (" ++ toString report_bytes.length ++
      " < " ++ toString SIGNED_DATA_LEN ++ " bytes)")
  else
    let report_body_bytes := report_bytes.take SIGNED_DATA_LEN
    let digest := m.sha384 report_body_bytes
    if report.sig_r.length < P384_SCALAR_SIZE ∨
        report.sig_s.length < P384_SCALAR_SIZE then
      throw ("Report signature components R/S length less than expected " ++
        toString P384_SCALAR_SIZE ++ " bytes")
    else
      let sig_r_be_bytes := (report.sig_r.take P384_SCALAR_SIZE).reverse
      let sig_s_be_bytes := (report.sig_s.take P384_SCALAR_SIZE).reverse
      let signature ← (m.signatureFromScalars sig_r_be_bytes sig_s_be_bytes).mapError
        (fun e => "Failed to create p384 signature object from scalars: " ++ e)
      if m.verifyPrehash verifying_key digest signature then
        pure ()
      else
        throw "Report signature verification failed"

/-- Mirror of `perform_attestation_checks` (attestation.rs lines 128-240): content
policy checks accumulating an error list, joined with "; " on failure. -/
def perform_attestation_checks (report : AttestationReport)
    (requirements : AttestationRequirements) (generation : String) :
    Except String Unit :=
  let reported_hex := hexEncode report.measurement
  let matched := requirements.measurements.find?
    (fun m => m.measurement_hex == reported_hex)
  let errs0 : List String :=
    match matched with
    | some m =>
      if m.status ≠ MeasurementStatus.Active then
        ["Measurement " ++ reported_hex ++ " is not Active (Status: " ++
         m.status.debugStr ++ ")"]
      else []
    | none =>
      ["Reported measurement " ++ reported_hex ++ " not found in allowed registry"]
  let errs1 := errs0 ++
    (if report.version < requirements.min_report_version then
      ["Report version " ++ toString report.version ++ " < min " ++
       toString requirements.min_report_version]
     else [])
  let tcb := report.reported_tcb
  let gen_policy :=
    if generation = "Milan" then requirements.milan_policy
    else if generation = "Genoa" then requirements.genoa_policy
    else if generation = "Turin" then requirements.turin_policy
    else requirements.milan_policy
  let errs2 := errs1 ++
    (if report.guest_svn < gen_policy.min_guest_svn then
      ["Guest SVN " ++ toString report.guest_svn ++ " < min " ++
       toString gen_policy.min_guest_svn]
     else [])
  let min_tcb := gen_policy.min_tcb
  let errs3 := errs2 ++
    (if tcb.microcode < min_tcb.microcode then
      ["TCB Microcode " ++ toString tcb.microcode ++ " < min " ++
       toString min_tcb.microcode]
     else []) ++
    (if tcb.snp < min_tcb.snp then
      ["TCB SNP " ++ toString tcb.snp ++ " < min " ++ toString min_tcb.snp]
     else []) ++
    (if tcb.tee < min_tcb.tee then
      ["TCB TEE " ++ toString tcb.tee ++ " < min " ++ toString min_tcb.tee]
     else []) ++
    (if tcb.bootloader < min_tcb.bootloader then
      ["TCB Bootloader " ++ toString tcb.bootloader ++ " < min " ++
       toString min_tcb.bootloader]
     else []) ++
    (match generation == "Turin", tcb.fmc with
     | true, some fmc =>
       if fmc < min_tcb.fmc then
         ["TCB FMC " ++ toString fmc ++ " < min " ++ toString min_tcb.fmc]
       else []
     | _, _ => [])
  let errs4 := errs3 ++
    (if requirements.require_smt_disabled ∧ PlatInfo.smt_enabled report.plat_info then
      ["SMT enabled, required disabled"] else []) ++
    (if requirements.require_tsme_disabled ∧ PlatInfo.tsme_enabled report.plat_info then
      ["TSME enabled, required disabled"] else []) ++
    (if requirements.require_ecc_enabled ∧ ¬ PlatInfo.ecc_enabled report.plat_info then
      ["ECC disabled, required enabled"] else [])
  if errs4.isEmpty then .ok () else .error (String.intercalate "; " errs4)

/-- Mirror of `verify_attestation_evidence` (attestation.rs lines 24-62): chain
phase, manual report-signature phase, `report_data` comparison, content
checks; returns the detected generation string. -/
def verify_attestation_evidence (m : SnpCryptoModel) (report_bytes : Bytes)
    (report : AttestationReport) (ark ask vek : m.Cert)
    (requirements : AttestationRequirements) (expected_report_data : Bytes) :
    Except String String := do
  verify_cert_chain m ark ask vek
  verify_report_signature_manually m report_bytes report vek
  if report.report_data ≠ expected_report_data then
    throw "Report Data mismatch. Replay attack or invalid nonce."
  else
    let generation := detect_generation_from_report report
    perform_attestation_checks report requirements generation
    pure generation

/-! ### Registry lifecycle handlers
(`gpt_index/src/handlers/node/lifecycle.rs`) -/

/-- Mirror of `deactivate_node_internal` (lifecycle.rs lines 20-78): scrub a node's
session state and principal-index entry, leaving its configuration
intact.  Nothing is written when the node is already Inactive with no
bound principal. -/
def deactivate_node_internal (st : RegistryState) (node_id : Nat) :
    RegistryState × Except CanisterError Unit :=
  match st.nodes node_id with
  | none => (st, .error .NodeNotFound)
  | some node =>
    if node.lifecycle_status ≠ NodeLifecycleStatus.Inactive ∨ node.node_principal.isSome then
      let principal_to_remove := node.node_principal
      let node1 := { node with
        lifecycle_status := NodeLifecycleStatus.Inactive,
        node_principal := none,
        public_key := none,
        authenticated_measurement := none,
        attestation_verified_at := none,
        last_heartbeat_timestamp := none,
        reported_measurement := none,
        reported_chip_id := none,
        reported_tcb := none,
        reported_platform_info := none,
        detected_generation := none }
      let nodes1 := fun k => if k = node_id then some node1 else st.nodes k
      let index1 :=
        match principal_to_remove with
        | some p => fun q => if q = p then none else st.nodeIndex q
        | none => st.nodeIndex
      ({ st with nodes := nodes1, nodeIndex := index1 }, .ok ())
    else
      (st, .ok ())

/-- Mirror of `heartbeat` (lifecycle.rs lines 100-222): resolve the caller through
the principal index, read the recorded measurement's status from the
configured measurement list, and answer Continue / DrainAndShutdown /
Abort, updating the node's lifecycle (with an inline full scrub on
Abort). -/
def heartbeat (st : RegistryState) (caller : Principal) (now : Nat) :
    RegistryState × Except CanisterError HeartbeatResponse :=
  if caller = anonymousPrincipal then (st, .error .Unauthorized)
  else
    match st.nodeIndex caller with
    | none => (st, .error .Unauthorized)
    | some node_id =>
      let measurements := (st.attestation_requirements.map
        (fun r => r.measurements)).getD []
      match st.nodes node_id with
      | none => (st, .error .NodeNotFound)
      | some node =>
        if node.node_principal ≠ some caller then (st, .error .Unauthorized)
        else
          let statusCommand : NodeLifecycleStatus × NodeHeartbeatCommand :=
            match node.reported_measurement with
            | some reported_bytes =>
              let reported_hex := hexEncode reported_bytes
              match measurements.find? (fun m => m.measurement_hex == reported_hex) with
              | some config_m =>
                match config_m.status with
                | .Active => (.Active, .Continue)
                | .Deprecated => (.Draining, .DrainAndShutdown)
                | .Revoked => (.Inactive, .Abort)
              | none => (.Inactive, .Abort)
            | none => (.Inactive, .Abort)
          let new_status := statusCommand.1
          let command := statusCommand.2
          if new_status = NodeLifecycleStatus.Inactive then
            let node1 := { node with
              lifecycle_status := NodeLifecycleStatus.Inactive,
              node_principal := none,
              public_key := none,
              authenticated_measurement := none,
              attestation_verified_at := none,
              last_heartbeat_timestamp := none,
              reported_measurement := none,
              reported_chip_id := none,
              reported_tcb := none,
              reported_platform_info := none,
              detected_generation := none }
            let index1 := fun q => if q = caller then none else st.nodeIndex q
            let nodes1 := fun k => if k = node_id then some node1 else st.nodes k
            ({ st with nodes := nodes1, nodeIndex := index1 }, .ok ⟨command⟩)
          else
            let node1 :=
              if node.lifecycle_status ≠ new_status then
                { node with lifecycle_status := new_status }
              else node
            let node2 := { node1 with last_heartbeat_timestamp := some now }
            let nodes1 := fun k => if k = node_id then some node2 else st.nodes k
            ({ st with nodes := nodes1 }, .ok ⟨command⟩)

/-! ### Registry registration handler
(`gpt_index/src/handlers/node/register.rs`) -/

/-- The target-state check of `register_node` (register.rs lines 88-94):
the `NODES.with(... is_some_and ...)` closure.  Registration may proceed
when the node exists and is Inactive, or its `node_principal` is the
caller (whatever its lifecycle state). -/
def canRegister (st : RegistryState) (caller : Principal) (node_id : Nat) : Bool :=
  match st.nodes node_id with
  | some node =>
    node.lifecycle_status == NodeLifecycleStatus.Inactive ||
      node.node_principal == some caller
  | none => false

/-- The `expected_report_data` recomputed by `register_node` (register.rs
lines 144-149): SHA-256 of the caller principal bytes followed by the
little-endian timestamp, then 32 zero bytes. -/
def registry_expected_report_data (caller : Principal) (timestamp : Nat) : Bytes :=
  sha256 (caller ++ u64le timestamp) ++ List.replicate 32 0

/-- Mirror of `register_node` (register.rs lines 19-264), as a state transition
given the caller principal and `api::time()`.  The steps appear in source
order: anonymous-caller check; eviction of the caller's previous session
on another node; public-key presence; configured requirements and
non-empty measurement list; replay window; target-state check; DER and
report parsing; evidence verification; measurement allow-list status;
chip-id binding; commit. -/
def register_node (m : SnpCryptoModel) (st : RegistryState) (caller : Principal)
    (now : Nat) (req : RegisterNodeRequest) :
    RegistryState × Except CanisterError RegisterNodeResponse :=
  if caller = anonymousPrincipal then (st, .error .Unauthorized)
  else
    let existing_node_id := st.nodeIndex caller
    let st1 :=
      match existing_node_id with
      | some old_id =>
        if old_id ≠ req.node_id then (deactivate_node_internal st old_id).1 else st
      | none => st
    if rustTrim req.public_key = "" then
      (st1, .error (.InvalidInput "Node public key is required for registration."))
    else
      match st1.attestation_requirements with
      | none =>
        (st1, .error (.Other "Index canister attestation requirements not configured"))
      | some requirements =>
        if requirements.measurements.isEmpty then
          (st1, .error (.Other
            "No active attestation measurements configured. Registration is disabled."))
        else
          let time_diff := Nat.dist now req.timestamp
          if time_diff > requirements.max_attestation_age_ns then
            (st1, .error (.InvalidInput
              ("Attestation timestamp too old or in future. Diff: " ++
               toString time_diff ++ "ns, Max: " ++
               toString requirements.max_attestation_age_ns ++ "ns")))
          else if ¬ canRegister st1 caller req.node_id then
            (st1, .error (.Other ("Node " ++ toString req.node_id ++
              " is currently active with a different controller.")))
          else
            match m.certFromDer req.ark_der with
            | .error e => (st1, .error (.InvalidInput ("Failed to parse ARK DER: " ++ e)))
            | .ok ark =>
              match m.certFromDer req.ask_der with
              | .error e => (st1, .error (.InvalidInput ("Failed to parse ASK DER: " ++ e)))
              | .ok ask =>
                match m.certFromDer req.vek_der with
                | .error e => (st1, .error (.InvalidInput ("Failed to parse VEK DER: " ++ e)))
                | .ok vek =>
                  match m.reportFromBytes req.attestation_report with
                  | .error e =>
                    (st1, .error (.InvalidInput
                      ("Failed to parse attestation report bytes: " ++ e)))
                  | .ok report =>
                    let expected_report_data :=
                      registry_expected_report_data caller req.timestamp
                    match verify_attestation_evidence m req.attestation_report report
                        ark ask vek requirements expected_report_data with
                    | .error e => (st1, .error (.InvalidInput e))
                    | .ok generation_str =>
                      let reported_hex := hexEncode report.measurement
                      match requirements.measurements.find?
                          (fun mm => mm.measurement_hex == reported_hex) with
                      | none =>
                        (st1, .error (.InvalidInput ("Measurement " ++ reported_hex ++
                          " not found in allowed registry.")))
                      | some mm =>
                        if mm.status ≠ MeasurementStatus.Active then
                          (st1, .error (.InvalidInput ("Measurement " ++ reported_hex ++
                            " is " ++ mm.status.debugStr ++ ". Registration rejected.")))
                        else
                          match st1.nodes req.node_id with
                          | none => (st1, .error .NodeNotFound)
                          | some n0 =>
                            match hexDecode n0.expected_chip_id with
                            | none =>
                              (st1, .error (.Other
                                "Internal error: Failed to decode expected_chip_id."))
                            | some expected_chip_id_bytes =>
                              if report.chip_id ≠ expected_chip_id_bytes then
                                (st1, .error (.InvalidInput
                                  "Chip ID mismatch between configuration and attestation report."))
                              else
                                match st1.nodes req.node_id with
                                | none => (st1, .error .NodeNotFound)
                                | some wrapper =>
                                  let tcb := report.reported_tcb
                                  let node1 := { wrapper with
                                    node_principal := some caller,
                                    lifecycle_status := NodeLifecycleStatus.Active,
                                    authenticated_measurement := some reported_hex,
                                    attestation_verified_at := some now,
                                    last_heartbeat_timestamp := some now,
                                    public_key := some req.public_key,
                                    reported_measurement := some report.measurement,
                                    reported_chip_id := some report.chip_id,
                                    reported_tcb := some
                                      ⟨tcb.bootloader, tcb.tee, tcb.snp, tcb.microcode,
                                       tcb.fmc.getD 0⟩,
                                    reported_platform_info := some report.plat_info,
                                    detected_generation := some generation_str }
                                  let nodes1 := fun k =>
                                    if k = req.node_id then some node1 else st1.nodes k
                                  let index1 := fun q =>
                                    if q = caller then some req.node_id else st1.nodeIndex q
                                  ({ st1 with nodes := nodes1, nodeIndex := index1 },
                                   .ok ⟨true⟩)

/-! ### Guest-side attestation
(`gpt_node/src/security/attestation/verification.rs`, `certs.rs`) and the
guest's registration nonce (`gpt_node/src/bootstrap/mod.rs`). -/

/-- Mirror of `verify_signatures_locally` (verification.rs): ASK-signs-VEK check,
then the same manual P-384 report verification as the registry — SHA-384
of the first 672 raw bytes, 48-byte little-endian scalars reversed to
big-endian, `from_scalars`, `verify_prehash`. -/
def verify_signatures_locally (m : SnpCryptoModel) (ask_cert vek_cert : m.Cert)
    (report : AttestationReport) (raw_report_bytes : Bytes) :
    Except String Unit := do
  if ¬ m.certVerify ask_cert vek_cert then
    throw "ASK does not sign VEK"
  else
    let encoded_point ← (m.encodedPointFromBytes (m.publicKeySec1 vek_cert)).mapError
      (fun e => "Failed to parse VEK public key SEC1 bytes: " ++ e)
    let verifying_key ← (m.verifyingKeyFromPoint encoded_point).mapError
      (fun e => "Failed to create P-384 verifying key from point: " ++ e)
    if raw_report_bytes.length < SIGNED_DATA_LEN then
      throw ("Report bytes length (" ++ toString raw_report_bytes.length ++
        ") is less than the expected signed data length (" ++
        toString SIGNED_DATA_LEN ++ " bytes).")
    else
      let report_body_bytes := raw_report_bytes.take SIGNED_DATA_LEN
      let digest := m.sha384 report_body_bytes
      if report.sig_r.length < P384_SCALAR_SIZE ∨
          report.sig_s.length < P384_SCALAR_SIZE then
        throw ("Report signature components (r/s) are shorter than the expected scalar size (" ++
          toString P384_SCALAR_SIZE ++ " bytes).")
      else
        let sig_r_be_bytes := (report.sig_r.take P384_SCALAR_SIZE).reverse
        let sig_s_be_bytes := (report.sig_s.take P384_SCALAR_SIZE).reverse
        let signature ← (m.signatureFromScalars sig_r_be_bytes sig_s_be_bytes).mapError
          (fun e => "Failed to create p384 signature from r/s scalars: " ++ e)
        if m.verifyPrehash verifying_key digest signature then
          pure ()
        else
          throw "VEK does not sign the attestation report (signature mismatch)"

/-- The built-in AMD CA certificates compiled into the guest through
`sev::certs::snp::builtin::{turin, genoa, milan}`; each loader may fail,
as in the crate API. -/
structure BuiltinCerts (Cert : Type) where
  turin_ark : Except String Cert
  turin_ask : Except String Cert
  genoa_ark : Except String Cert
  genoa_ask : Except String Cert
  milan_ark : Except String Cert
  milan_ask : Except String Cert

/-- Mirror of `verify_vek_against_builtins` (certs.rs): try the Turin, Genoa then
Milan built-in chains; accept the first whose ASK verifies the VEK,
returning that `CaChain`.  This root pinning exists only in the guest. -/
def verify_vek_against_builtins (m : SnpCryptoModel) (b : BuiltinCerts m.Cert)
    (vek : m.Cert) : Except String (m.Cert × m.Cert) :=
  let tryMilan : Except String (m.Cert × m.Cert) :=
    match b.milan_ark, b.milan_ask with
    | .ok ark, .ok ask =>
      if m.certVerify ask vek then .ok (ark, ask)
      else .error "VEK could not be verified by any known built-in CA chain (Milan/Genoa/Turin)."
    | _, _ => .error "VEK could not be verified by any known built-in CA chain (Milan/Genoa/Turin)."
  let tryGenoa : Except String (m.Cert × m.Cert) :=
    match b.genoa_ark, b.genoa_ask with
    | .ok ark, .ok ask => if m.certVerify ask vek then .ok (ark, ask) else tryMilan
    | _, _ => tryMilan
  match b.turin_ark, b.turin_ask with
  | .ok ark, .ok ask => if m.certVerify ask vek then .ok (ark, ask) else tryGenoa
  | _, _ => tryGenoa

/-- The 64-byte `report_data` payload built by the guest at startup
(bootstrap/mod.rs lines 31-38): SHA-256 over the ephemeral caller
principal bytes and the little-endian timestamp, then 32 zero bytes. -/
def guest_report_data_payload (ephemeral_principal : Principal)
    (timestamp : Nat) : Bytes :=
  sha256 (ephemeral_principal ++ u64le timestamp) ++ List.replicate 32 0

/-! ### Host launcher (`gpt_host/src/vm/launcher.rs`) -/

/-- The SEV-SNP guest policy bitmask `POLICY` (launcher.rs line 28).  The
source comment describes bit 16 (SMT allowed), bit 17 (reserved), and
bit 22 (AES-256-XTS), and sets the constant to `0x30000` — "currently
without Bit 22". -/
def POLICY : Nat := 0x30000

/-- The `-object sev-snp-guest,...` argument assembled by
`launch_node_vm` (launcher.rs lines 105-109), with the policy rendered
as `policy=0x{:X}`. -/
def sevSnpGuestObjectArg (host_data_b64 : String) : String :=
  "sev-snp-guest,id=sev0,cbitpos=51,reduced-phys-bits=1,host-data=" ++
    host_data_b64 ++ ",policy=0x" ++ natHexUpper POLICY ++ ",kernel-hashes=on"

/-! ### Host seed loading (`gpt_host/src/identity/seed.rs`)

The file system is modelled as the optional byte content of the seed
file.  `Read::read_exact` into a 24-byte buffer fills the buffer from
the start of the file and fails exactly when fewer than 24 bytes are
available; trailing bytes are not read.  The permission check only warns
and does not affect the result. -/

/-- Mirror of `SEED_LENGTH` (seed.rs line 25). -/
def SEED_LENGTH : Nat := 24

/-- Mirror of `load_seed` (seed.rs lines 86-125) over the modelled file content. -/
def load_seed (file : Option Bytes) : Except String Bytes :=
  match file with
  | none => .error "Node seed file not found"
  | some content =>
    if content.length < SEED_LENGTH then .error "Failed to read seed file"
    else .ok (content.take SEED_LENGTH)

/-! ### Host port allocation
(`gpt_host/src/network/port_manager.rs`, `gpt_host/src/systemd/service.rs`)

The systemd directory is modelled as a list of `(file name, content)`
pairs, and binding a port on loopback as a predicate on ports.  The two
regular expressions the source uses, `gpt_node_(\d+)\.service` and a
port-flag pattern followed by `(\d+)`, are modelled by direct scanners;
for these patterns the scanners coincide with leftmost-match regex
semantics because a maximal digit run can never be shortened to let the
trailing literal (which starts with a non-digit) match. -/

/-- Longest leading run of ASCII digits. -/
def digitRun : List Char → List Char
  | [] => []
  | c :: rest => if c.isDigit then c :: digitRun rest else []

/-- Numeric value of a digit run. -/
def digitsVal (cs : List Char) : Nat :=
  cs.foldl (fun a c => 10 * a + (c.toNat - 48)) 0

/-- First capture of the pattern `flag(\d+)` in a character list: find
the leftmost occurrence of `flag` that is immediately followed by at
least one digit and return the value of the maximal digit run. -/
def flagCaptureChars (flag : List Char) : List Char → Option Nat
  | [] => none
  | c :: rest =>
    if flag.isPrefixOf (c :: rest) then
      let ds := digitRun (List.drop flag.length (c :: rest))
      if ds.isEmpty then flagCaptureChars flag rest
      else some (digitsVal ds)
    else flagCaptureChars flag rest

/-- First capture of `flag(\d+)` in a string (e.g. `--port (\d+)` with
`flag = "--port "`). -/
def flagCapture (flag content : String) : Option Nat :=
  flagCaptureChars flag.toList content.toList

/-- Does `gpt_node_(\d+)\.service` match (anywhere) in a file name? -/
def nodeServiceMatchChars : List Char → Bool
  | [] => false
  | c :: rest =>
    (if ("gpt_node_".toList).isPrefixOf (c :: rest) then
      let after := List.drop 9 (c :: rest)
      let ds := digitRun after
      !ds.isEmpty && (".service".toList).isPrefixOf (List.drop ds.length after)
     else false) || nodeServiceMatchChars rest

/-- Mirror of `Regex::new(r"gpt_node_(\d+)\.service").is_match` on a file name. -/
def nodeServiceMatch (fname : String) : Bool :=
  nodeServiceMatchChars fname.toList

/-- Mirror of `get_allocated_ports` (port_manager.rs lines 15-44): scan the systemd
directory for `gpt_node_(\d+).service` files and collect every port that
the `--port (\d+)` pattern finds in their contents and that parses as a
`u16`. -/
def get_allocated_ports (files : List (String × String)) : List Nat :=
  files.foldl (fun ports fc =>
    if nodeServiceMatch fc.1 then
      match flagCapture "--port " fc.2 with
      | some v => if v ≤ 65535 ∧ ¬ ports.contains v then ports ++ [v] else ports
      | none => ports
    else ports) []

/-- Mirror of `get_assigned_port` (port_manager.rs lines 47-64): read
`gpt_node_{id}.service` if it exists and return the port captured by
`--port (\d+)`; a capture that does not parse as `u16` is an error. -/
def get_assigned_port (node_id : Nat) (files : List (String × String)) :
    Except String (Option Nat) :=
  let service_name := "gpt_node_" ++ toString node_id ++ ".service"
  match files.find? (fun fc => fc.1 == service_name) with
  | none => .ok none
  | some fc =>
    match flagCapture "--port " fc.2 with
    | some v => if v ≤ 65535 then .ok (some v) else .error "port parse out of range"
    | none => .ok none

/-- Mirror of `find_free_port` (port_manager.rs lines 68-70): the first port of
`[start, stop)` that is neither excluded nor currently bound. -/
def find_free_port (start stop : Nat) (excluded : List Nat)
    (bindable : Nat → Bool) : Option Nat :=
  (List.range' start (stop - start)).find?
    (fun p => !excluded.contains p && bindable p)

/-- The unit file content written by `add_service` (service.rs lines
85-114).  Its `ExecStart` line records the port with the short flag
`-p`, not `--port`. -/
def nodeServiceContent (exe_path : String) (node_id port : Nat) : String :=
  "[Unit]\n" ++
  "Description=GPT Protocol Node " ++ toString node_id ++ "\n" ++
  "After=network.target\n" ++
  "# Fail if pre-check fails\n" ++
  "OnFailure=failure-handler.service\n" ++
  "\n" ++
  "[Service]\n" ++
  "Type=simple\n" ++
  "# Verify SEV-SNP hardware support before starting\n" ++
  "ExecStartPre=" ++ exe_path ++ " check\n" ++
  "# Replace this process with QEMU via execv\n" ++
  "ExecStart=" ++ exe_path ++ " launch-internal " ++ toString node_id ++
    " -p " ++ toString port ++ "\n" ++
  "# Graceful shutdown via SIGTERM to QEMU -> ACPI to Guest\n" ++
  "KillSignal=SIGTERM\n" ++
  "TimeoutStopSec=120\n" ++
  "# Do not restart automatically on failure (per requirements)\n" ++
  "Restart=no\n" ++
  "# Run as root for /dev/sev and memory locking\n" ++
  "User=root\n" ++
  "Group=root\n" ++
  "# Security hardening\n" ++
  "PrivateTmp=true\n" ++
  "\n" ++
  "[Install]\n" ++
  "WantedBy=multi-user.target\n"

/-- The port-determination logic of `add_service` (service.rs lines
62-82): an explicit port wins; otherwise reuse the port recorded for
this node id, if any; otherwise the lowest free port in `[8000, 9000)`
outside the allocated set. -/
def add_service_port (files : List (String × String)) (bindable : Nat → Bool)
    (node_id : Nat) (port_opt : Option Nat) : Except String Nat :=
  match port_opt with
  | some p => .ok p
  | none =>
    match get_assigned_port node_id files with
    | .error e => .error e
    | .ok (some existing) => .ok existing
    | .ok none =>
      let allocated := get_allocated_ports files
      match find_free_port 8000 9000 allocated bindable with
      | some p => .ok p
      | none => .error "No free ports available in range 8000-9000"

/-! ### Concrete instances

A small decidable instantiation of the abstract cryptography, used to
evaluate the handlers on explicit inputs.  Certificates are numbers; a
fixed signer relation models which certificate key signs which
certificate; point/key/signature construction always succeeds and
`verify_prehash` accepts, modelling an attacker who holds the private
key of the endorsement certificate of their own chain. -/

/-- Signer relation of the toy public-key infrastructure.  Certificates
0-5 are the built-in AMD ARK/ASK pairs (Turin 0/1, Genoa 2/3, Milan
4/5); certificates 100/101/102 are an attacker ARK (self-signed), ASK
and VEK. -/
def toyCertSigner : Nat → Option Nat
  | 0 => some 0
  | 1 => some 0
  | 2 => some 2
  | 3 => some 2
  | 4 => some 4
  | 5 => some 4
  | 100 => some 100
  | 101 => some 100
  | 102 => some 101
  | _ => none

/-- Toy instantiation of the library primitives.  A DER blob `[b]`
parses to certificate `b`; the report parser returns `rep` for any
input. -/
def toyCrypto (rep : AttestationReport) : SnpCryptoModel where
  Cert := Nat
  Point := Unit
  VKey := Unit
  Sig := Unit
  certFromDer := fun bs =>
    match bs with
    | [b] => .ok b
    | _ => .error "bad DER"
  certVerify := fun a b => toyCertSigner b == some a
  publicKeySec1 := fun _ => []
  encodedPointFromBytes := fun _ => .ok ()
  verifyingKeyFromPoint := fun _ => .ok ()
  signatureFromScalars := fun _ _ => .ok ()
  verifyPrehash := fun _ _ _ => true
  sha384 := fun _ => []
  reportFromBytes := fun _ => .ok rep

instance (rep : AttestationReport) : DecidableEq ((toyCrypto rep).Cert) :=
  instDecidableEqNat

/-- The built-in AMD chains of the toy PKI. -/
def toyBuiltins (rep : AttestationReport) : BuiltinCerts (toyCrypto rep).Cert where
  turin_ark := .ok (0 : Nat)
  turin_ask := .ok (1 : Nat)
  genoa_ark := .ok (2 : Nat)
  genoa_ask := .ok (3 : Nat)
  milan_ark := .ok (4 : Nat)
  milan_ask := .ok (5 : Nat)

/-- A 48-byte measurement of zeros. -/
def meas48 : Bytes := List.replicate 48 0

/-- A 64-byte chip identifier of zeros. -/
def chip64 : Bytes := List.replicate 64 0

/-- Attestation requirements with one Active measurement (the hex form
of `meas48`) and a 1000 ns replay window. -/
def toyRequirements : AttestationRequirements where
  min_report_version := 1
  milan_policy := ⟨⟨0, 0, 0, 0, 0⟩, 0⟩
  genoa_policy := ⟨⟨0, 0, 0, 0, 0⟩, 0⟩
  turin_policy := ⟨⟨0, 0, 0, 0, 0⟩, 0⟩
  require_smt_disabled := false
  require_tsme_disabled := false
  require_ecc_enabled := false
  require_rapl_disabled := false
  require_ciphertext_hiding_enabled := false
  measurements := [⟨hexEncode meas48, "release-1", .Active, 0, 0⟩]
  expected_measurement_len := 48
  max_attestation_age_ns := 1000

/-- A report carrying `meas48`, `chip64`, a Milan-style TCB (no FMC) and
the given `report_data`. -/
def mkReport (rd : Bytes) : AttestationReport where
  version := 2
  guest_svn := 0
  measurement := meas48
  report_data := rd
  chip_id := chip64
  reported_tcb := ⟨none, 0, 0, 0, 0⟩
  plat_info := 0
  sig_r := List.replicate 72 0
  sig_s := List.replicate 72 0

/-- A configured, unregistered node record. -/
def mkNode (id : Nat) : Node where
  node_id := id
  owner := [9]
  node_principal := none
  hostname := "node.example.com"
  model_id := "model-1"
  encrypted_api_key := "enc-api-key"
  lifecycle_status := .Inactive
  authenticated_measurement := none
  attestation_verified_at := none
  last_heartbeat_timestamp := none
  expected_chip_id := hexEncode chip64
  reported_measurement := none
  reported_chip_id := none
  reported_tcb := none
  reported_platform_info := none
  detected_generation := none
  public_key := none

/-- Caller principal of the attacker-chain scenario. -/
def atkCaller : Principal := [1, 2, 3]

/-- Attacker-chain report: its `report_data` is the very nonce the
registry recomputes for `atkCaller` at timestamp 500. -/
def atkReport : AttestationReport :=
  mkReport (registry_expected_report_data atkCaller 500)

/-- Registry state with one configured, Inactive node 7. -/
def c1State : RegistryState where
  nodes := fun k => if k = 7 then some (mkNode 7) else none
  nodeIndex := fun _ => none
  attestation_requirements := some toyRequirements

/-- Registration request for node 7 carrying the attacker chain
100/101/102. -/
def c1Req : RegisterNodeRequest :=
  ⟨7, List.replicate 672 0, [100], [101], [102], 500, "pk"⟩

/-- Caller principal of the stale-timestamp scenario. -/
def c3Caller : Principal := [1]

/-- Node 5 with an active session bound to `c3Caller`. -/
def c3NodeActive : Node :=
  { mkNode 5 with
    lifecycle_status := .Active
    node_principal := some c3Caller
    public_key := some "oldpk"
    authenticated_measurement := some (hexEncode meas48)
    reported_measurement := some meas48
    reported_chip_id := some chip64
    reported_tcb := some ⟨0, 0, 0, 0, 0⟩
    reported_platform_info := some 0
    detected_generation := some "Milan"
    attestation_verified_at := some 10
    last_heartbeat_timestamp := some 10 }

/-- Registry state where `c3Caller` is indexed to node 5 and node 7 is
configured and Inactive. -/
def c3State : RegistryState where
  nodes := fun k =>
    if k = 5 then some c3NodeActive
    else if k = 7 then some (mkNode 7) else none
  nodeIndex := fun q => if q = c3Caller then some 5 else none
  attestation_requirements := some toyRequirements

/-- Registration request for node 7 with timestamp 0 (far outside the
1000 ns replay window at `now = 1000000`). -/
def c3Req : RegisterNodeRequest := ⟨7, [], [], [], [], 0, "pk2"⟩

/-- Caller principal of the Draining re-registration scenario. -/
def c4Caller : Principal := [2, 2]

/-- Attacker-chain style report for `c4Caller` at timestamp 600. -/
def c4Report : AttestationReport :=
  mkReport (registry_expected_report_data c4Caller 600)

/-- Node 7 in the Draining state, still bound to `c4Caller`. -/
def c4Node : Node :=
  { mkNode 7 with
    lifecycle_status := .Draining
    node_principal := some c4Caller
    public_key := some "pk0"
    reported_measurement := some meas48 }

/-- Registry state whose node 7 is Draining and bound to `c4Caller`. -/
def c4State : RegistryState where
  nodes := fun k => if k = 7 then some c4Node else none
  nodeIndex := fun q => if q = c4Caller then some 7 else none
  attestation_requirements := some toyRequirements

/-- Re-registration request by the same principal for the Draining
node 7. -/
def c4Req : RegisterNodeRequest :=
  ⟨7, List.replicate 672 0, [100], [101], [102], 600, "pk"⟩

/-- Caller principal of the heartbeat scenarios. -/
def c5Caller : Principal := [3, 3]

/-- Node 3, Draining, bound to `c5Caller`, with `meas48` recorded. -/
def c5Node : Node :=
  { mkNode 3 with
    lifecycle_status := .Draining
    node_principal := some c5Caller
    public_key := some "pk5"
    reported_measurement := some meas48
    last_heartbeat_timestamp := some 5 }

/-- Heartbeat state whose recorded measurement is Active in the
registry. -/
def c5State : RegistryState where
  nodes := fun k => if k = 3 then some c5Node else none
  nodeIndex := fun q => if q = c5Caller then some 3 else none
  attestation_requirements := some toyRequirements

/-- Requirements marking `meas48` Revoked. -/
def toyRequirementsRevoked : AttestationRequirements :=
  { toyRequirements with
    measurements := [⟨hexEncode meas48, "release-1", .Revoked, 0, 0⟩] }

/-- Heartbeat state whose recorded measurement is Revoked in the
registry. -/
def c10State : RegistryState where
  nodes := fun k => if k = 3 then some c5Node else none
  nodeIndex := fun q => if q = c5Caller then some 3 else none
  attestation_requirements := some toyRequirementsRevoked

/-- Systemd directory holding one node unit written by `add_service`
for node 7 on port 8500. -/
def c7Files : List (String × String) :=
  [("gpt_node_7.service", nodeServiceContent "/usr/local/bin/gpt_host" 7 8500)]

/-- Node 9 Active under principal `[7, 7]`. -/
def c4bNode : Node :=
  { mkNode 9 with
    lifecycle_status := .Active
    node_principal := some [7, 7]
    reported_measurement := some meas48 }

/-- Registry state whose node 9 is Active under a principal different
from the caller of the rejection scenario. -/
def c4bState : RegistryState where
  nodes := fun k => if k = 9 then some c4bNode else none
  nodeIndex := fun _ => none
  attestation_requirements := some toyRequirements

/-- Registration request for the Active node 9 by a different caller. -/
def c4bReq : RegisterNodeRequest := ⟨9, [], [], [], [], 100, "pk"⟩

/-! ### Statement vocabulary

Definitions used only to state the properties below (they do not occur
in the embedded code). -/

/-- A node record with every session field cleared and the lifecycle set
to Inactive, exactly the assignment list shared by
`deactivate_node_internal` and the inline Abort cleanup of `heartbeat`;
the configuration fields (`node_id`, `owner`, `hostname`, `model_id`,
`encrypted_api_key`, `expected_chip_id`) are untouched. -/
def sessionCleared (node : Node) : Node :=
  { node with
    lifecycle_status := NodeLifecycleStatus.Inactive,
    node_principal := none,
    public_key := none,
    authenticated_measurement := none,
    attestation_verified_at := none,
    last_heartbeat_timestamp := none,
    reported_measurement := none,
    reported_chip_id := none,
    reported_tcb := none,
    reported_platform_info := none,
    detected_generation := none }

/-- What the claim states a report-signature verifier accepts: the P-384
machinery succeeds on the digest of exactly the first 672 raw bytes and
on the signature built from the byte-reversed 48-byte scalars. -/
def sigCheckSpec (m : SnpCryptoModel) (report_bytes : Bytes)
    (report : AttestationReport) (vek : m.Cert) : Prop :=
  ∃ pt vk sg,
    m.encodedPointFromBytes (m.publicKeySec1 vek) = .ok pt ∧
    m.verifyingKeyFromPoint pt = .ok vk ∧
    SIGNED_DATA_LEN ≤ report_bytes.length ∧
    P384_SCALAR_SIZE ≤ report.sig_r.length ∧
    P384_SCALAR_SIZE ≤ report.sig_s.length ∧
    m.signatureFromScalars ((report.sig_r.take P384_SCALAR_SIZE).reverse)
      ((report.sig_s.take P384_SCALAR_SIZE).reverse) = .ok sg ∧
    m.verifyPrehash vk (m.sha384 (report_bytes.take SIGNED_DATA_LEN)) sg = true

/-! ## Helper lemmas -/

/-- The SHA-256 digest always has 32 bytes. -/
theorem sha256_length (msg : Bytes) : (sha256 msg).length = 32 := by
  simp [sha256, word32BE]

/-- Scrubbing a node never touches the configured attestation
requirements. -/
theorem deactivate_preserves_config (st : RegistryState) (i : Nat) :
    (deactivate_node_internal st i).1.attestation_requirements =
      st.attestation_requirements := by
  unfold deactivate_node_internal
  cases hn : st.nodes i
  · rfl
  · simp only
    split <;> rfl

/-! ## Claims -/

set_option maxRecDepth 100000 in
/-- C1: the claim states that `register_node` re-verifies the
endorsement chain against AMD root anchors compiled into the registry
and rejects a chain whose root is only the caller-supplied ARK.  The
registry code does not do this: `verify_cert_chain` checks only that the
caller-supplied ARK is self-signed and signs the ASK, which signs the
VEK, and `gpt_index` contains no compiled-in roots.  Evaluated here: a
full `register_node` run whose certificates 100/101/102 form a
self-consistent chain rooted in the attacker's own ARK succeeds and
activates the node, although that VEK fails the guest's built-in-root
check and certificate 100 is none of the built-in AMD ARKs 0/2/4. -/
theorem C1_registry_accepts_chain_without_compiled_root :
    (register_node (toyCrypto atkReport) c1State atkCaller 1000 c1Req).2 =
      .ok ⟨true⟩ ∧
    ((register_node (toyCrypto atkReport) c1State atkCaller 1000 c1Req).1.nodes 7).map
      (fun n => n.lifecycle_status) = some .Active ∧
    verify_cert_chain (toyCrypto atkReport) (100 : Nat) (101 : Nat) (102 : Nat) =
      .ok () ∧
    verify_vek_against_builtins (toyCrypto atkReport) (toyBuiltins atkReport)
      (102 : Nat) =
      .error "VEK could not be verified by any known built-in CA chain (Milan/Genoa/Turin)." ∧
    (100 : Nat) ∉ [0, 2, 4] := by
  refine ⟨by decide, by decide, by decide, by decide, by decide⟩

/-- C2 counterexample: the claim states the SEV-SNP policy bitmask has
the AES-256-XTS bit (22) set with Migrate (18) and Debug (19) cleared;
on the code `POLICY = 0x30000`, whose bit 22 is clear, so the claimed
conjunction fails. -/
theorem C2_counterexample :
    ¬ (POLICY.testBit 22 = true ∧ POLICY.testBit 18 = false ∧
       POLICY.testBit 19 = false) := by
  decide

/-- C2 (amended): the policy bitmask `launch_node_vm` passes in the
`sev-snp-guest` object is `0x30000`: SMT-allowed (16) and the reserved
bit (17) set, Migrate (18) and Debug (19) cleared, and the AES-256-XTS
bit (22) NOT set. -/
theorem C2_policy_bits :
    POLICY = 0x30000 ∧
    POLICY.testBit 16 = true ∧ POLICY.testBit 17 = true ∧
    POLICY.testBit 18 = false ∧ POLICY.testBit 19 = false ∧
    POLICY.testBit 22 = false ∧
    ∀ b64 : String, sevSnpGuestObjectArg b64 =
      "sev-snp-guest,id=sev0,cbitpos=51,reduced-phys-bits=1,host-data=" ++ b64 ++
        ",policy=0x30000,kernel-hashes=on" := by
  refine ⟨rfl, by decide, by decide, by decide, by decide, by decide, ?_⟩
  intro b
  unfold sevSnpGuestObjectArg
  have h30 : natHexUpper POLICY = "30000" := by decide
  rw [h30, String.append_assoc, String.append_assoc]
  rfl

/-- C3 counterexample: the claim states the replay-window check runs
before session eviction, so a stale-timestamp rejection leaves the state
unchanged.  On the code the eviction runs first: this registration by
`c3Caller` (indexed to node 5) for node 7 with a stale timestamp is
rejected for the replay window, yet node 5 has been deactivated and the
caller's index entry removed. -/
theorem C3_counterexample :
    (register_node (toyCrypto atkReport) c3State c3Caller 1000000 c3Req).2 =
      .error (.InvalidInput
        "Attestation timestamp too old or in future. Diff: 1000000ns, Max: 1000ns") ∧
    c3State.nodeIndex c3Caller = some 5 ∧
    (c3State.nodes 5).map (fun n => n.lifecycle_status) = some .Active ∧
    (register_node (toyCrypto atkReport) c3State c3Caller 1000000 c3Req).1.nodeIndex
      c3Caller = none ∧
    ((register_node (toyCrypto atkReport) c3State c3Caller 1000000 c3Req).1.nodes 5).map
      (fun n => n.lifecycle_status) = some .Inactive := by
  refine ⟨by decide, by decide, by decide, by decide, by decide⟩

/-- C3 (amended): in `register_node` the session eviction (code step 1)
precedes the replay-window check (code step 3): whenever the caller is
indexed to a different node and the timestamp is outside the window, the
call returns the replay rejection with the state of the evicted session,
not the original state. -/
theorem C3_eviction_precedes_replay_window
    (m : SnpCryptoModel) (st : RegistryState) (caller : Principal) (now : Nat)
    (req : RegisterNodeRequest) (old_id : Nat) (reqs : AttestationRequirements)
    (hanon : caller ≠ anonymousPrincipal)
    (hidx : st.nodeIndex caller = some old_id)
    (hne : old_id ≠ req.node_id)
    (hpk : ¬ rustTrim req.public_key = "")
    (hcfg : st.attestation_requirements = some reqs)
    (hms : ¬ reqs.measurements.isEmpty)
    (hlate : Nat.dist now req.timestamp > reqs.max_attestation_age_ns) :
    register_node m st caller now req =
      ((deactivate_node_internal st old_id).1,
       .error (.InvalidInput
         ("Attestation timestamp too old or in future. Diff: " ++
          toString (Nat.dist now req.timestamp) ++ "ns, Max: " ++
          toString reqs.max_attestation_age_ns ++ "ns"))) := by
  have hc : (deactivate_node_internal st old_id).1.attestation_requirements =
      some reqs := by
    rw [deactivate_preserves_config]; exact hcfg
  unfold register_node
  rw [if_neg hanon, hidx]
  simp only [if_pos hne, if_neg hpk, hc]
  rw [if_neg (by simpa using hms), if_pos hlate]

set_option maxRecDepth 10000 in
/-- C3 witness: the amended theorem applied to the concrete stale
scenario. -/
theorem C3_eviction_precedes_replay_window_witness :
    register_node (toyCrypto atkReport) c3State c3Caller 1000000 c3Req =
      ((deactivate_node_internal c3State 5).1,
       .error (.InvalidInput
         ("Attestation timestamp too old or in future. Diff: " ++
          toString (Nat.dist 1000000 c3Req.timestamp) ++ "ns, Max: " ++
          toString toyRequirements.max_attestation_age_ns ++ "ns"))) :=
  C3_eviction_precedes_replay_window (toyCrypto atkReport) c3State c3Caller
    1000000 c3Req 5 toyRequirements (by decide) (by decide) (by decide)
    (by decide) (by decide) (by decide) (by decide)

set_option maxRecDepth 100000 in
/-- C4 counterexample: the claim states that any state other than
Inactive, or Active bound to the same caller, is rejected — in
particular a Draining node.  On the code the target-state check also
accepts a Draining node bound to the caller: this registration for the
Draining node 7 by its own bound principal succeeds. -/
theorem C4_counterexample :
    (c4State.nodes 7).map (fun n => n.lifecycle_status) = some .Draining ∧
    (c4State.nodes 7).map (fun n => n.node_principal) = some (some c4Caller) ∧
    (register_node (toyCrypto c4Report) c4State c4Caller 600 c4Req).2 =
      .ok ⟨true⟩ := by
  refine ⟨by decide, by decide, by decide⟩

/-- C4 (amended): the target-state check of `register_node` passes
exactly when the target node exists and is Inactive or its
`node_principal` is the caller — whatever its lifecycle state, so a
Draining node bound to the caller is also accepted; when the check
fails the call is rejected with "Node {id} is currently active with a
different controller." and the state is unchanged. -/
theorem C4_target_state_check
    (m : SnpCryptoModel) (st : RegistryState) (caller : Principal) (now : Nat)
    (req : RegisterNodeRequest) (reqs : AttestationRequirements)
    (hanon : caller ≠ anonymousPrincipal)
    (hidx : st.nodeIndex caller = none)
    (hpk : ¬ rustTrim req.public_key = "")
    (hcfg : st.attestation_requirements = some reqs)
    (hms : ¬ reqs.measurements.isEmpty)
    (hfresh : ¬ Nat.dist now req.timestamp > reqs.max_attestation_age_ns) :
    (canRegister st caller req.node_id = true ↔
      ∃ node, st.nodes req.node_id = some node ∧
        (node.lifecycle_status = .Inactive ∨ node.node_principal = some caller)) ∧
    (canRegister st caller req.node_id = false →
      register_node m st caller now req =
        (st, .error (.Other ("Node " ++ toString req.node_id ++
          " is currently active with a different controller.")))) := by
  constructor
  · unfold canRegister
    cases hn : st.nodes req.node_id with
    | none => simp
    | some node => simp [hn]
  · intro hcr
    unfold register_node
    rw [if_neg hanon, hidx]
    simp only [if_neg hpk, hcfg]
    rw [if_neg (by simpa using hms), if_neg hfresh, if_pos (by simp [hcr])]

/-- C4 witness: the amended theorem applied to an Active node bound to
a different principal. -/
theorem C4_target_state_check_witness :
    register_node (toyCrypto atkReport) c4bState [8, 8] 100 c4bReq =
      (c4bState, .error (.Other ("Node " ++ toString c4bReq.node_id ++
        " is currently active with a different controller."))) :=
  (C4_target_state_check (toyCrypto atkReport) c4bState [8, 8] 100 c4bReq
    toyRequirements (by decide) (by decide) (by decide) (by decide) (by decide)
    (by decide)).2 (by decide)

/-- C5: for a heartbeat whose caller resolves through the principal
index to its bound node, the command and resulting lifecycle are
determined by the recorded measurement's status among the configured
measurements: Active yields Continue with the lifecycle set to Active
(so a Draining node returns to Active) and `last_heartbeat_timestamp`
updated to now; Deprecated yields DrainAndShutdown with lifecycle
Draining; Revoked or an absent measurement yields Abort with the full
session scrub applied and the caller removed from the index. -/
theorem C5_heartbeat_command_by_measurement_status
    (st : RegistryState) (caller : Principal) (now : Nat) (node_id : Nat)
    (node : Node) (reqs : AttestationRequirements) (mbytes : Bytes)
    (hanon : caller ≠ anonymousPrincipal)
    (hidx : st.nodeIndex caller = some node_id)
    (hnode : st.nodes node_id = some node)
    (hp : node.node_principal = some caller)
    (hcfg : st.attestation_requirements = some reqs)
    (hm : node.reported_measurement = some mbytes) :
    (∀ cm, reqs.measurements.find?
        (fun m => m.measurement_hex == hexEncode mbytes) = some cm →
      cm.status = .Active →
      (heartbeat st caller now).2 = .ok ⟨.Continue⟩ ∧
      (heartbeat st caller now).1.nodes node_id =
        some { node with lifecycle_status := .Active,
                         last_heartbeat_timestamp := some now } ∧
      (heartbeat st caller now).1.nodeIndex = st.nodeIndex) ∧
    (∀ cm, reqs.measurements.find?
        (fun m => m.measurement_hex == hexEncode mbytes) = some cm →
      cm.status = .Deprecated →
      (heartbeat st caller now).2 = .ok ⟨.DrainAndShutdown⟩ ∧
      (heartbeat st caller now).1.nodes node_id =
        some { node with lifecycle_status := .Draining,
                         last_heartbeat_timestamp := some now } ∧
      (heartbeat st caller now).1.nodeIndex = st.nodeIndex) ∧
    ((reqs.measurements.find?
        (fun m => m.measurement_hex == hexEncode mbytes) = none ∨
      (∃ cm, reqs.measurements.find?
          (fun m => m.measurement_hex == hexEncode mbytes) = some cm ∧
        cm.status = .Revoked)) →
      (heartbeat st caller now).2 = .ok ⟨.Abort⟩ ∧
      (heartbeat st caller now).1.nodes node_id = some (sessionCleared node) ∧
      (heartbeat st caller now).1.nodeIndex caller = none) := by
  unfold heartbeat
  rw [if_neg hanon, hidx]
  dsimp only
  rw [hcfg, hnode]
  dsimp only [Option.map, Option.getD]
  rw [if_neg (by simp [hp]), hm]
  dsimp only
  refine ⟨?_, ?_, ?_⟩
  · intro cm hfind hst
    rw [hfind]
    dsimp only
    rw [hst]
    dsimp only
    rw [if_neg (by decide)]
    refine ⟨rfl, ?_, rfl⟩
    dsimp only
    rw [if_pos rfl]
    by_cases hls : node.lifecycle_status = NodeLifecycleStatus.Active <;>
      simp [hls, hm]
  · intro cm hfind hst
    rw [hfind]
    dsimp only
    rw [hst]
    dsimp only
    rw [if_neg (by decide)]
    refine ⟨rfl, ?_, rfl⟩
    dsimp only
    rw [if_pos rfl]
    by_cases hls : node.lifecycle_status = NodeLifecycleStatus.Draining <;>
      simp [hls, hm]
  · intro hcase
    have habort :
        (match reqs.measurements.find? (fun m => m.measurement_hex == hexEncode mbytes) with
          | some config_m =>
            match config_m.status with
            | MeasurementStatus.Active =>
              (NodeLifecycleStatus.Active, NodeHeartbeatCommand.Continue)
            | MeasurementStatus.Deprecated =>
              (NodeLifecycleStatus.Draining, NodeHeartbeatCommand.DrainAndShutdown)
            | MeasurementStatus.Revoked =>
              (NodeLifecycleStatus.Inactive, NodeHeartbeatCommand.Abort)
          | none => (NodeLifecycleStatus.Inactive, NodeHeartbeatCommand.Abort)) =
        (NodeLifecycleStatus.Inactive, NodeHeartbeatCommand.Abort) := by
      rcases hcase with hnone | ⟨cm, hfind, hst⟩
      · rw [hnone]
      · rw [hfind]
        dsimp only
        rw [hst]
    rw [habort]
    dsimp only
    rw [if_pos rfl]
    refine ⟨rfl, ?_, ?_⟩
    · dsimp only
      rw [if_pos rfl]
      simp [sessionCleared]
    · dsimp only
      rw [if_pos rfl]

set_option maxRecDepth 10000 in
/-- C5 witness: the Active case at a concrete Draining node, which
returns Continue and transitions back to Active with the heartbeat
timestamp updated. -/
theorem C5_heartbeat_command_by_measurement_status_witness :
    (heartbeat c5State c5Caller 77).2 = .ok ⟨.Continue⟩ ∧
    (heartbeat c5State c5Caller 77).1.nodes 3 =
      some { c5Node with lifecycle_status := .Active,
                         last_heartbeat_timestamp := some 77 } ∧
    (heartbeat c5State c5Caller 77).1.nodeIndex = c5State.nodeIndex :=
  (C5_heartbeat_command_by_measurement_status c5State c5Caller 77 3 c5Node
    toyRequirements meas48 (by decide) (by decide) (by decide) (by decide)
    (by decide) (by decide)).1
    ⟨hexEncode meas48, "release-1", .Active, 0, 0⟩ (by decide) (by decide)

/-- C6: the 64-byte `report_data` payload built by the guest at startup
and the `expected_report_data` recomputed by the registry in
`register_node` are equal as functions of the caller principal and the
timestamp; bytes 0..32 are SHA-256 of the principal bytes followed by
the 8 little-endian timestamp bytes, and bytes 32..64 are zero. -/
theorem C6_report_data_constructions_agree :
    ∀ (principal : Principal) (timestamp : Nat),
      guest_report_data_payload principal timestamp =
        registry_expected_report_data principal timestamp ∧
      (guest_report_data_payload principal timestamp).take 32 =
        sha256 (principal ++ u64le timestamp) ∧
      (guest_report_data_payload principal timestamp).drop 32 =
        List.replicate 32 0 ∧
      (guest_report_data_payload principal timestamp).length = 64 := by
  intro p t
  refine ⟨rfl, ?_, ?_, ?_⟩
  · have h := sha256_length (p ++ u64le t)
    calc (guest_report_data_payload p t).take 32
        = (sha256 (p ++ u64le t) ++ List.replicate 32 0).take
            (sha256 (p ++ u64le t)).length := by rw [h]; rfl
      _ = sha256 (p ++ u64le t) := List.take_left ..
  · have h := sha256_length (p ++ u64le t)
    calc (guest_report_data_payload p t).drop 32
        = (sha256 (p ++ u64le t) ++ List.replicate 32 0).drop
            (sha256 (p ++ u64le t)).length := by rw [h]; rfl
      _ = List.replicate 32 0 := List.drop_left ..
  · simp [guest_report_data_payload, sha256_length]

set_option maxRecDepth 100000 in
/-- C7: the claim states automatic allocation excludes ports recorded in
existing `gpt_node_{id}.service` units and reuses the recorded port of
an existing unit for the same node.  The unit content `add_service`
writes records the port with the `-p` flag (where the watcher's
`-p (\d+)` pattern finds it), but `get_assigned_port` and
`get_allocated_ports` search for `--port (\d+)`: with a unit for node 7
recording port 8500, the recorded port is neither found nor excluded,
and a fresh allocation returns 8000 instead of reusing 8500. -/
theorem C7_port_regex_mismatch :
    flagCapture "-p " (nodeServiceContent "/usr/local/bin/gpt_host" 7 8500) =
      some 8500 ∧
    get_assigned_port 7 c7Files = .ok none ∧
    get_allocated_ports c7Files = [] ∧
    add_service_port c7Files (fun _ => true) 7 none = .ok 8000 := by
  refine ⟨by decide, by decide, by decide, by decide⟩

/-- C8 counterexample: the claim states a 25-byte seed file causes a
fatal read error; on the code `read_exact` fills the 24-byte buffer and
succeeds, ignoring the trailing byte. -/
theorem C8_counterexample :
    load_seed (some (List.replicate 25 1)) = .ok (List.replicate 24 1) := by
  decide

/-- C8 (amended): `load_seed` fails exactly when the seed file exists
with fewer than 24 bytes (so a 23-byte file fails) or does not exist; a
file of 24 bytes or more (including a 25-byte file) yields its first 24
bytes. -/
theorem C8_load_seed_short_read
    : (∀ content : Bytes, load_seed (some content) =
        if content.length < SEED_LENGTH then .error "Failed to read seed file"
        else .ok (content.take SEED_LENGTH)) ∧
      load_seed (some (List.replicate 23 1)) = .error "Failed to read seed file" ∧
      load_seed none = .error "Node seed file not found" :=
  ⟨fun _ => rfl, by decide, rfl⟩

/-- C9: each of the two report-signature verifiers (registry and guest)
accepts exactly when the P-384 library accepts the SHA-384 digest of the
first 672 raw report bytes against the signature constructed from the
byte-reversed 48-byte `r` and `s` scalars (the guest one additionally
requires the ASK-signs-VEK check); in particular neither verifier passes
the scalars in their stored little-endian order. -/
theorem C9_signature_verifiers_reverse_scalars
    (m : SnpCryptoModel) (report_bytes : Bytes) (report : AttestationReport)
    (ask vek : m.Cert) :
    (verify_report_signature_manually m report_bytes report vek = .ok () ↔
      sigCheckSpec m report_bytes report vek) ∧
    (verify_signatures_locally m ask vek report report_bytes = .ok () ↔
      (m.certVerify ask vek = true ∧ sigCheckSpec m report_bytes report vek)) := by
  constructor
  · unfold verify_report_signature_manually sigCheckSpec
    rcases hpt : m.encodedPointFromBytes (m.publicKeySec1 vek) with e | pt
    · simp [hpt, Except.mapError, Except.instMonad, bind, Except.bind]
    · rcases hvk : m.verifyingKeyFromPoint pt with e2 | vk
      · simp [hpt, hvk, Except.mapError, Except.instMonad, bind, Except.bind]
      · by_cases hlen : report_bytes.length < SIGNED_DATA_LEN
        · simp only [hpt, hvk, hlen, if_true, if_pos, Except.mapError,
            Except.instMonad, bind, Except.bind, throw, throwThe, MonadExceptOf.throw]
          constructor
          · intro h
            exact absurd h (by simp)
          · rintro ⟨pt2, vk2, sg2, h1, h2, h3, h4⟩
            omega
        · rcases hsg : m.signatureFromScalars
              ((report.sig_r.take P384_SCALAR_SIZE).reverse)
              ((report.sig_s.take P384_SCALAR_SIZE).reverse) with e3 | sg
          · by_cases hrs : report.sig_r.length < P384_SCALAR_SIZE ∨
                report.sig_s.length < P384_SCALAR_SIZE
            · simp only [hpt, hvk, hlen, hrs, if_false, if_true, Except.mapError,
                Except.instMonad, bind, Except.bind, throw, throwThe,
                MonadExceptOf.throw]
              constructor
              · intro h
                exact absurd h (by simp)
              · rintro ⟨pt2, vk2, sg2, h1, h2, h3, h4, h5, h6⟩
                omega
            · simp [hpt, hvk, hlen, hrs, hsg, Except.mapError, Except.instMonad,
                bind, Except.bind]
          · by_cases hrs : report.sig_r.length < P384_SCALAR_SIZE ∨
                report.sig_s.length < P384_SCALAR_SIZE
            · simp only [hpt, hvk, hlen, hrs, if_false, if_true, Except.mapError,
                Except.instMonad, bind, Except.bind, throw, throwThe,
                MonadExceptOf.throw]
              constructor
              · intro h
                exact absurd h (by simp)
              · rintro ⟨pt2, vk2, sg2, h1, h2, h3, h4, h5, h6⟩
                omega
            · by_cases hv : m.verifyPrehash vk
                  (m.sha384 (report_bytes.take SIGNED_DATA_LEN)) sg = true
              · simp [hpt, hvk, hlen, hrs, hsg, hv, Except.mapError,
                  Except.instMonad, bind, Except.bind, pure, Except.pure]
                omega
              · simp [hpt, hvk, hlen, hrs, hsg, hv, Except.mapError,
                  Except.instMonad, bind, Except.bind, pure, Except.pure]
  · unfold verify_signatures_locally sigCheckSpec
    by_cases hcv : m.certVerify ask vek = true
    · rcases hpt : m.encodedPointFromBytes (m.publicKeySec1 vek) with e | pt
      · simp [hcv, hpt, Except.mapError, Except.instMonad, bind, Except.bind]
      · rcases hvk : m.verifyingKeyFromPoint pt with e2 | vk
        · simp [hcv, hpt, hvk, Except.mapError, Except.instMonad, bind, Except.bind]
        · by_cases hlen : report_bytes.length < SIGNED_DATA_LEN
          · simp only [hcv, hpt, hvk, hlen, not_true, if_false, if_true, if_pos,
              Except.mapError, Except.instMonad, bind, Except.bind, throw, throwThe,
              MonadExceptOf.throw, Bool.not_eq_true]
            constructor
            · intro h
              exact absurd h (by simp)
            · rintro ⟨_, pt2, vk2, sg2, h1, h2, h3, h4⟩
              omega
          · rcases hsg : m.signatureFromScalars
                ((report.sig_r.take P384_SCALAR_SIZE).reverse)
                ((report.sig_s.take P384_SCALAR_SIZE).reverse) with e3 | sg
            · by_cases hrs : report.sig_r.length < P384_SCALAR_SIZE ∨
                  report.sig_s.length < P384_SCALAR_SIZE
              · simp only [hcv, hpt, hvk, hlen, hrs, not_true, if_false, if_true,
                  Except.mapError, Except.instMonad, bind, Except.bind, throw,
                  throwThe, MonadExceptOf.throw, Bool.not_eq_true]
                constructor
                · intro h
                  exact absurd h (by simp)
                · rintro ⟨_, pt2, vk2, sg2, h1, h2, h3, h4, h5, h6⟩
                  omega
              · simp [hcv, hpt, hvk, hlen, hrs, hsg, Except.mapError,
                  Except.instMonad, bind, Except.bind]
            · by_cases hrs : report.sig_r.length < P384_SCALAR_SIZE ∨
                  report.sig_s.length < P384_SCALAR_SIZE
              · simp only [hcv, hpt, hvk, hlen, hrs, not_true, if_false, if_true,
                  Except.mapError, Except.instMonad, bind, Except.bind, throw,
                  throwThe, MonadExceptOf.throw, Bool.not_eq_true]
                constructor
                · intro h
                  exact absurd h (by simp)
                · rintro ⟨_, pt2, vk2, sg2, h1, h2, h3, h4, h5, h6⟩
                  omega
              · by_cases hv : m.verifyPrehash vk
                    (m.sha384 (report_bytes.take SIGNED_DATA_LEN)) sg = true
                · simp [hcv, hpt, hvk, hlen, hrs, hsg, hv, Except.mapError,
                    Except.instMonad, bind, Except.bind, pure, Except.pure]
                  omega
                · simp [hcv, hpt, hvk, hlen, hrs, hsg, hv, Except.mapError,
                    Except.instMonad, bind, Except.bind, pure, Except.pure]
    · simp [hcv, throw, throwThe, MonadExceptOf.throw]

/-- C10: both session scrubs — `deactivate_node_internal` (when there is
a session to scrub) and the inline cleanup of a heartbeat answering
Abort — replace the node with `sessionCleared node`, which clears
exactly the session fields (lifecycle to Inactive, principal, public
key, measurements, TCB, heartbeat, platform info, generation) while the
configuration fields `node_id`, `owner`, `hostname`, `model_id`,
`encrypted_api_key` and `expected_chip_id` are unchanged; other nodes,
the configuration cell and unrelated index entries are untouched, and
the scrubbed principal leaves the index. -/
theorem C10_scrub_clears_only_session_fields
    (st : RegistryState) (node_id : Nat) (node : Node)
    (caller : Principal) (now : Nat)
    (hnode : st.nodes node_id = some node) :
    ((node.lifecycle_status ≠ NodeLifecycleStatus.Inactive ∨
        node.node_principal.isSome) →
      (deactivate_node_internal st node_id).1.nodes node_id =
        some (sessionCleared node) ∧
      (∀ j, j ≠ node_id →
        (deactivate_node_internal st node_id).1.nodes j = st.nodes j) ∧
      (deactivate_node_internal st node_id).1.attestation_requirements =
        st.attestation_requirements ∧
      (∀ q, some q ≠ node.node_principal →
        (deactivate_node_internal st node_id).1.nodeIndex q = st.nodeIndex q) ∧
      (∀ p, node.node_principal = some p →
        (deactivate_node_internal st node_id).1.nodeIndex p = none)) ∧
    (caller ≠ anonymousPrincipal →
      st.nodeIndex caller = some node_id →
      node.node_principal = some caller →
      (heartbeat st caller now).2 = .ok ⟨.Abort⟩ →
      (heartbeat st caller now).1.nodes node_id = some (sessionCleared node) ∧
      (∀ j, j ≠ node_id → (heartbeat st caller now).1.nodes j = st.nodes j) ∧
      (heartbeat st caller now).1.attestation_requirements =
        st.attestation_requirements ∧
      (∀ q, q ≠ caller → (heartbeat st caller now).1.nodeIndex q = st.nodeIndex q) ∧
      (heartbeat st caller now).1.nodeIndex caller = none) ∧
    (sessionCleared node).node_id = node.node_id ∧
    (sessionCleared node).owner = node.owner ∧
    (sessionCleared node).hostname = node.hostname ∧
    (sessionCleared node).model_id = node.model_id ∧
    (sessionCleared node).encrypted_api_key = node.encrypted_api_key ∧
    (sessionCleared node).expected_chip_id = node.expected_chip_id ∧
    (sessionCleared node).lifecycle_status = NodeLifecycleStatus.Inactive ∧
    (sessionCleared node).node_principal = none ∧
    (sessionCleared node).public_key = none ∧
    (sessionCleared node).authenticated_measurement = none ∧
    (sessionCleared node).attestation_verified_at = none ∧
    (sessionCleared node).last_heartbeat_timestamp = none ∧
    (sessionCleared node).reported_measurement = none ∧
    (sessionCleared node).reported_chip_id = none ∧
    (sessionCleared node).reported_tcb = none ∧
    (sessionCleared node).reported_platform_info = none ∧
    (sessionCleared node).detected_generation = none := by
  refine ⟨?_, ?_, rfl, rfl, rfl, rfl, rfl, rfl, rfl, rfl, rfl, rfl, rfl, rfl,
    rfl, rfl, rfl, rfl, rfl⟩
  · intro hdirty
    unfold deactivate_node_internal
    rw [hnode]
    dsimp only
    rw [if_pos hdirty]
    refine ⟨?_, ?_, rfl, ?_, ?_⟩
    · dsimp only
      rw [if_pos rfl]
      simp [sessionCleared]
    · intro j hj
      dsimp only
      rw [if_neg hj]
    · intro q hq
      dsimp only
      rcases hpr : node.node_principal with _ | p0
      · rfl
      · rw [hpr] at hq
        have hqp : q ≠ p0 := by
          intro he
          exact hq (by rw [he])
        dsimp only
        rw [if_neg hqp]
    · intro p hpr
      rw [hpr]
      dsimp only
      rw [if_pos rfl]
  · intro hanon hidx hp
    unfold heartbeat
    rw [if_neg hanon, hidx]
    dsimp only
    rw [hnode]
    dsimp only
    rw [if_neg (by simp [hp])]
    rcases hm2 : node.reported_measurement with _ | mb
    · rw [if_pos rfl]
      intro _
      refine ⟨?_, ?_, rfl, ?_, ?_⟩
      · dsimp only
        rw [if_pos rfl]
        simp [sessionCleared]
      · intro j hj
        dsimp only
        rw [if_neg hj]
      · intro q hq
        dsimp only
        rw [if_neg hq]
      · dsimp only
        rw [if_pos rfl]
    · dsimp only
      rcases hf : List.find?
          (fun m => m.measurement_hex == hexEncode mb)
          ((Option.map (fun r => r.measurements) st.attestation_requirements).getD [])
        with _ | cm
      · rw [hf]
        dsimp only
        rw [if_pos rfl]
        intro _
        refine ⟨?_, ?_, rfl, ?_, ?_⟩
        · dsimp only
          rw [if_pos rfl]
          simp [sessionCleared]
        · intro j hj
          dsimp only
          rw [if_neg hj]
        · intro q hq
          dsimp only
          rw [if_neg hq]
        · dsimp only
          rw [if_pos rfl]
      · rw [hf]
        dsimp only
        rcases hstx : cm.status with _ | _ | _
        · dsimp only
          rw [if_neg (by decide)]
          intro hab
          simp at hab
        · dsimp only
          rw [if_neg (by decide)]
          intro hab
          simp at hab
        · dsimp only
          rw [if_pos rfl]
          intro _
          refine ⟨?_, ?_, rfl, ?_, ?_⟩
          · dsimp only
            rw [if_pos rfl]
            simp [sessionCleared]
          · intro j hj
            dsimp only
            rw [if_neg hj]
          · intro q hq
            dsimp only
            rw [if_neg hq]
          · dsimp only
            rw [if_pos rfl]

set_option maxRecDepth 10000 in
/-- C10 witness: at a concrete Draining node with a Revoked measurement
both scrub sites produce the session-cleared record, the principal is
dropped from the index, and the configuration fields survive. -/
theorem C10_scrub_clears_only_session_fields_witness :
    (deactivate_node_internal c10State 3).1.nodes 3 =
      some (sessionCleared c5Node) ∧
    (heartbeat c10State c5Caller 99).1.nodes 3 = some (sessionCleared c5Node) ∧
    (heartbeat c10State c5Caller 99).1.nodeIndex c5Caller = none ∧
    (sessionCleared c5Node).hostname = c5Node.hostname ∧
    (sessionCleared c5Node).encrypted_api_key = c5Node.encrypted_api_key ∧
    (sessionCleared c5Node).expected_chip_id = c5Node.expected_chip_id :=
  ⟨((C10_scrub_clears_only_session_fields c10State 3 c5Node c5Caller 99
      (by decide)).1 (by decide)).1,
   ((C10_scrub_clears_only_session_fields c10State 3 c5Node c5Caller 99
      (by decide)).2.1 (by decide) (by decide) (by decide) (by decide)).1,
   ((C10_scrub_clears_only_session_fields c10State 3 c5Node c5Caller 99
      (by decide)).2.1 (by decide) (by decide) (by decide) (by decide)).2.2.2.2,
   (C10_scrub_clears_only_session_fields c10State 3 c5Node c5Caller 99
      (by decide)).2.2.2.2.1,
   (C10_scrub_clears_only_session_fields c10State 3 c5Node c5Caller 99
      (by decide)).2.2.2.2.2.2.1,
   (C10_scrub_clears_only_session_fields c10State 3 c5Node c5Caller 99
      (by decide)).2.2.2.2.2.2.2.1⟩

end Gpt
